import Mathlib

/-!
# ReperooV2 — verification of spec claims against a shallow embedding

This file embeds, in Lean 4, the parts of the ReperooV2 personal-finance
backend that the frozen claims C1..C10 are about:

* `Experience` — `src/apps/api/src/services/experience_service.py`
  (level math, daily check-in, inactivity penalties, transaction XP,
  status reads).  Calendar dates are modelled as epoch-day integers
  (`ℤ`): Python `date` equality is integer equality and
  `(a - b).days` is integer subtraction, so this abstraction is exact
  for everything the service does with dates.
* `Insights` — `src/apps/api/src/services/insights_service.py`
  (percentage rounding, savings month-over-month deltas).  Python
  floats are modelled by exact rationals (`ℚ`); the spec itself states
  the raw percentages "are computed as reals".
* `Recurrence` — `src/apps/api/src/services/recurring_materialization_service.py`
  (monthly occurrence generation).  Python `datetime.replace`, which
  raises `ValueError` when the resulting day is out of range for the
  month, is modelled in the `Except` monad.
* `Routes` — `src/apps/api/src/routes/transaction_routes.py`
  (the try/except structure around XP awarding).
* `TransactionRepo` — `src/apps/api/src/repositories/transaction_repository.py`
  (the date-range listing query).
-/

namespace Experience

/--
`calculate_level_from_xp` from `experience_service.py`:

```python
if xp <= 0:
    return 1
n = (-1 + math.sqrt(1 + 0.8 * xp)) / 2
return max(1, math.floor(n) + 1)
```

The float formula is modelled by its exact real value.  For `xp ≥ 1`,
`(-1 + √(1 + 0.8·xp)) / 2 = (√(25 + 20·xp) - 5) / 10`, and the floor of
that real is `(Nat.sqrt (25 + 20·xp) - 5) / 10` in natural arithmetic;
the bridge lemma `floor_formula_eq_nat_formula` below proves the two
agree, so this executable definition computes exactly the real-valued
source formula.
-/
def calculate_level_from_xp (xp : ℤ) : ℤ :=
  if xp ≤ 0 then 1
  else max 1 (((Nat.sqrt (25 + 20 * xp.toNat) - 5) / 10 : ℕ) + 1)

/-- `calculate_total_xp_for_level` from `experience_service.py`. -/
def calculate_total_xp_for_level (level : ℤ) : ℤ :=
  if level ≤ 1 then 0
  else 5 * (level - 1) * ((level - 1) + 1)

/-- `xp_required_for_next_level` from `experience_service.py`. -/
def xp_required_for_next_level (current_level : ℤ) : ℤ :=
  current_level * 10

/-- `get_evolution_stage` from `experience_service.py`. -/
def get_evolution_stage (level : ℤ) : String :=
  if level ≥ 51 then "Legendary"
  else if level ≥ 31 then "Prime"
  else if level ≥ 16 then "Adult"
  else if level ≥ 6 then "Young"
  else "Baby"

/-- `ExperienceService.STREAK_MILESTONES` (a dict, modelled as an
association list) and `TRANSACTION_DAILY_LIMIT`. -/
def STREAK_MILESTONES : List (ℤ × ℤ) :=
  [(7, 50), (14, 75), (30, 150), (60, 250), (100, 400), (150, 500), (200, 600), (365, 1000)]

def TRANSACTION_DAILY_LIMIT : ℤ := 5

/-- The gamification columns of the `profiles` row.  Calendar dates are
epoch-day integers; Python `int` columns are `ℤ`. -/
structure Profile where
  timezone : String
  current_level : ℤ
  current_xp : ℤ
  current_streak : ℤ
  longest_streak : ℤ
  last_login_date : Option ℤ
  total_xp_earned : ℤ
  transactions_today_count : ℤ
  last_transaction_date : Option ℤ
deriving Repr, DecidableEq

/-- An `xp_events` row (the columns the experience service reads and
writes; `created_at` ordering is the list order). -/
structure XPEvent where
  xp_amount : ℤ
  event_type : String
  description : String
deriving Repr, DecidableEq

/-- The session state the experience service sees: the user's profile
row plus the user's XP-event rows in insertion (`created_at`) order. -/
structure ExpState where
  profile : Profile
  events : List XPEvent
deriving Repr, DecidableEq

/-- Substring test used to model SQLAlchemy's
`XPEvent.description.contains(...)`. -/
def charsContains (pat : List Char) : List Char → Bool
  | [] => pat.isEmpty
  | c :: rest => pat.isPrefixOf (c :: rest) || charsContains pat rest

def strContains (s pat : String) : Bool := charsContains pat.toList s.toList

/-- `XPEventRepository.get_milestone_event`: first event with
`event_type == "streak_milestone"` whose description contains
`f"{days}-day"`. -/
def get_milestone_event (events : List XPEvent) (days : ℤ) : Option XPEvent :=
  events.find? (fun e =>
    e.event_type == "streak_milestone" && strContains e.description (toString days ++ "-day"))

/-- One iteration of the `for day in range(1, days_missed + 1)` loop of
`_apply_inactivity_penalties`: append the event of `-15*day` XP and
floor `current_xp` at 0. -/
def inactivity_penalty_step (acc : Profile × List XPEvent) (day : ℤ) :
    Profile × List XPEvent :=
  let amount := -(15 * day)
  let ev : XPEvent :=
    { xp_amount := amount
      event_type := "inactivity_penalty"
      description := "Missed day " ++ toString day ++ " of inactivity" }
  ({ acc.1 with current_xp := max 0 (acc.1.current_xp + amount) }, acc.2 ++ [ev])

/-- `_apply_inactivity_penalties`: for `day = 1..days_missed` append an
event of `-15*day` XP and floor `current_xp` at 0 after each; then
recompute the level.  Returns the updated profile and the penalty events
in creation order. -/
def apply_inactivity_penalties (p : Profile) (days_missed : ℤ) : Profile × List XPEvent :=
  let days := (List.range days_missed.toNat).map (fun i => (i : ℤ) + 1)
  let res := days.foldl inactivity_penalty_step (p, [])
  ({ res.1 with current_level := calculate_level_from_xp res.1.current_xp }, res.2)

/-- `_check_and_award_streak_milestone`: award the mapped bonus once per
streak value, idempotent via `get_milestone_event` over the event log
(pending events included, as SQLAlchemy autoflushes). -/
def check_and_award_streak_milestone (p : Profile) (events : List XPEvent) :
    Profile × List XPEvent × Option (ℤ × ℤ) :=
  let streak := p.current_streak
  match STREAK_MILESTONES.find? (fun m => m.1 == streak) with
  | none => (p, events, none)
  | some m =>
    match get_milestone_event events streak with
    | some _ => (p, events, none)
    | none =>
      let ev : XPEvent :=
        { xp_amount := m.2
          event_type := "streak_milestone"
          description := toString streak ++ "-day streak bonus" }
      ({ p with
          current_xp := p.current_xp + m.2
          total_xp_earned := p.total_xp_earned + m.2 },
       events ++ [ev], some (streak, m.2))

/-- The `CheckInResponse` model. -/
structure CheckInResponse where
  xp_awarded : ℤ
  new_total_xp : ℤ
  new_level : ℤ
  level_up : Bool
  previous_level : Option ℤ
  streak_incremented : Bool
  new_streak : ℤ
  streak_broken : Bool
  inactivity_penalties : List XPEvent
  milestone_reached : Option (ℤ × ℤ)
  message : String
deriving Repr, DecidableEq

/--
`check_in` from `experience_service.py`, with `today = date.today()`
(the server's current date) passed explicitly.  Mirrors the source step
by step: the already-checked-in early return; the inactivity branch
(`days_missed = (today - last_login_date).days - 1`), which applies
penalties, zeroes the streak and sets `streak_broken`; the `+15`
`daily_login` event; the streak increment (only when the streak was not
broken); the milestone check; then `last_login_date := today` and the
level recomputation.
-/
def check_in (today : ℤ) (s : ExpState) : ExpState × CheckInResponse :=
  let profile := s.profile
  if profile.last_login_date = some today then
    (s,
     { xp_awarded := 0
       new_total_xp := profile.current_xp
       new_level := profile.current_level
       level_up := false
       previous_level := none
       streak_incremented := false
       new_streak := profile.current_streak
       streak_broken := false
       inactivity_penalties := []
       milestone_reached := none
       message := "Already checked in today" })
  else
    let pe : Profile × List XPEvent × Bool :=
      match profile.last_login_date with
      | some last =>
        let days_missed := today - last - 1
        if 0 < days_missed then
          let pres := apply_inactivity_penalties profile days_missed
          ({ pres.1 with current_streak := 0 }, pres.2, true)
        else (profile, [], false)
      | none => (profile, [], false)
    let p1 := pe.1
    let penalties := pe.2.1
    let streak_broken := pe.2.2
    let previous_level := p1.current_level
    let loginEv : XPEvent :=
      { xp_amount := 15, event_type := "daily_login", description := "Daily check-in" }
    let p2 := { p1 with
      current_xp := p1.current_xp + 15
      total_xp_earned := p1.total_xp_earned + 15 }
    let p3 :=
      if streak_broken then p2
      else
        let ns := p2.current_streak + 1
        { p2 with
          current_streak := ns
          longest_streak := if ns > p2.longest_streak then ns else p2.longest_streak }
    let events1 := s.events ++ penalties ++ [loginEv]
    let mres := check_and_award_streak_milestone p3 events1
    let p4 := mres.1
    let events2 := mres.2.1
    let milestone := mres.2.2
    let p5 := { p4 with last_login_date := some today }
    let new_level := calculate_level_from_xp p5.current_xp
    let p6 := { p5 with current_level := new_level }
    ({ profile := p6, events := events2 },
     { xp_awarded := 15
       new_total_xp := p6.current_xp
       new_level := new_level
       level_up := decide (previous_level < new_level)
       previous_level := if previous_level < new_level then some previous_level else none
       streak_incremented := !streak_broken
       new_streak := p6.current_streak
       streak_broken := streak_broken
       inactivity_penalties := penalties
       milestone_reached := milestone
       message := "Welcome back! +15 XP" })

/-- The dict returned by `award_transaction_xp` on success. -/
structure AwardResult where
  xp_awarded : ℤ
  new_total_xp : ℤ
  transactions_today_count : ℤ
deriving Repr, DecidableEq

/--
`award_transaction_xp` from `experience_service.py`, with
`today = date.today()` passed explicitly: reset the daily counter when
`last_transaction_date != today`; return `None` (no event, no XP) when
`transactions_today_count >= TRANSACTION_DAILY_LIMIT`; otherwise append a
`+3` `transaction` event, bump XP, totals and the counter, and recompute
the level.
-/
def award_transaction_xp (today : ℤ) (s : ExpState) : ExpState × Option AwardResult :=
  let profile := s.profile
  let p1 :=
    if profile.last_transaction_date ≠ some today then
      { profile with transactions_today_count := 0, last_transaction_date := some today }
    else profile
  if p1.transactions_today_count ≥ TRANSACTION_DAILY_LIMIT then
    ({ s with profile := p1 }, none)
  else
    let ev : XPEvent :=
      { xp_amount := 3, event_type := "transaction", description := "Logged transaction" }
    let p2 := { p1 with
      current_xp := p1.current_xp + 3
      total_xp_earned := p1.total_xp_earned + 3
      transactions_today_count := p1.transactions_today_count + 1 }
    let p3 := { p2 with current_level := calculate_level_from_xp p2.current_xp }
    ({ profile := p3, events := s.events ++ [ev] },
     some
       { xp_awarded := 3
         new_total_xp := p3.current_xp
         transactions_today_count := p3.transactions_today_count })

/-- The `ExperienceResponse` model (the fields `get_status` fills). -/
structure ExperienceResponse where
  current_level : ℤ
  current_xp : ℤ
  xp_for_next_level : ℤ
  total_xp_for_current_level : ℤ
  evolution_stage : String
  current_streak : ℤ
  longest_streak : ℤ
  last_login_date : Option ℤ
  transactions_today_count : ℤ
  transactions_daily_limit : ℤ
deriving Repr, DecidableEq

/--
`get_status` from `experience_service.py`, with `today = date.today()`
passed explicitly.  The level/XP response fields are read before the
reset; when `last_transaction_date != today` the method zeroes
`transactions_today_count`, stamps `last_transaction_date = today` and
commits, and the response then shows the post-reset counter (the source
reads the mutated ORM object).
-/
def get_status (today : ℤ) (s : ExpState) : ExpState × ExperienceResponse :=
  let profile := s.profile
  let current_level := profile.current_level
  let current_xp := profile.current_xp
  let total_xp_for_current := calculate_total_xp_for_level current_level
  let xp_for_next := xp_required_for_next_level current_level
  let evolution_stage := get_evolution_stage current_level
  let p1 :=
    if profile.last_transaction_date ≠ some today then
      { profile with transactions_today_count := 0, last_transaction_date := some today }
    else profile
  ({ s with profile := p1 },
   { current_level := current_level
     current_xp := current_xp
     xp_for_next_level := xp_for_next
     total_xp_for_current_level := total_xp_for_current
     evolution_stage := evolution_stage
     current_streak := p1.current_streak
     longest_streak := p1.longest_streak
     last_login_date := p1.last_login_date
     transactions_today_count := p1.transactions_today_count
     transactions_daily_limit := TRANSACTION_DAILY_LIMIT })

/-- The clock environment: `serverToday` is what Python's `date.today()`
returns on the server; `localToday z` is `datetime.now(ZoneInfo(z)).date()`
— the calendar date, at the same instant, in the IANA zone named `z`;
`knownZone z` is whether `ZoneInfo(z)` succeeds (an unknown zone name
raises). -/
structure Clock where
  serverToday : ℤ
  localToday : String → ℤ
  knownZone : String → Bool

/-- `check_in` as actually invoked: `today = date.today()` is the
server's date, whatever the profile's timezone. -/
def check_in_route (c : Clock) (s : ExpState) : ExpState × CheckInResponse :=
  check_in c.serverToday s

/-- `award_transaction_xp` as actually invoked: `today = date.today()`. -/
def award_transaction_xp_route (c : Clock) (s : ExpState) : ExpState × Option AwardResult :=
  award_transaction_xp c.serverToday s

/--
`get_user_today` from `src/apps/api/src/utils/date_utils.py` — the
source's implementation of the spec's `today_in(zone)`:

```python
try:
    local_tz = ZoneInfo(user_timezone)
    return datetime.now(local_tz).date()
except Exception:
    # Fallback to UTC if timezone is invalid
    return datetime.now(ZoneInfo('UTC')).date()
```

The experience service never calls this helper — it uses
`date.today()` directly.
-/
def get_user_today (c : Clock) (user_timezone : String) : ℤ :=
  if c.knownZone user_timezone then c.localToday user_timezone
  else c.localToday "UTC"

/-- `check_in` as spec §4.7 step 1 describes it,
`today = today_in(profile.timezone)`, with the source's own
`get_user_today` as the timezone resolver — the comparison point for the
refinement claim C5. -/
def check_in_spec_tz (c : Clock) (s : ExpState) : ExpState × CheckInResponse :=
  check_in (get_user_today c s.profile.timezone) s

/-- `award_transaction_xp` with `today = today_in(profile.timezone)`
(spec §4.7), resolved through the source's `get_user_today`. -/
def award_transaction_xp_spec_tz (c : Clock) (s : ExpState) :
    ExpState × Option AwardResult :=
  award_transaction_xp (get_user_today c s.profile.timezone) s

/-- `n` consecutive `award_transaction_xp` calls, all with the same
`date.today()` value. -/
def award_calls (today : ℤ) : ℕ → ExpState → ExpState
  | 0, s => s
  | n + 1, s => award_calls today n (award_transaction_xp today s).1

/-- Number of `event_type == "transaction"` XP events in the log. -/
def count_transaction_events (events : List XPEvent) : ℕ :=
  (events.filter (fun e => e.event_type == "transaction")).length

/-- A trace of `award_transaction_xp` calls, each tagged with the pair
`(server date, user-local date)` of the instant at which it runs (the
user-local date is the server instant rendered in the profile's IANA
zone; the service itself only ever reads the server date).  Returns how
many `transaction` XP events were created at instants whose user-local
date is `u`. -/
def award_trace_user_day_count (u : ℤ) : List (ℤ × ℤ) → ExpState → ℕ
  | [], _ => 0
  | c :: rest, s =>
    let s1 := (award_transaction_xp c.1 s).1
    (if c.2 = u then count_transaction_events s1.events - count_transaction_events s.events
     else 0) + award_trace_user_day_count u rest s1

/-- A concrete fresh profile (used for concrete instantiations). -/
def sampleProfile : Profile :=
  { timezone := "UTC"
    current_level := 1
    current_xp := 0
    current_streak := 0
    longest_streak := 0
    last_login_date := none
    total_xp_earned := 0
    transactions_today_count := 0
    last_transaction_date := none }

def sampleState : ExpState := { profile := sampleProfile, events := [] }

/-- A concrete profile that last checked in three days before server
date 10 (used for concrete instantiations of the gap scenario). -/
def gapProfile : Profile :=
  { timezone := "UTC"
    current_level := 5
    current_xp := 100
    current_streak := 5
    longest_streak := 5
    last_login_date := some 7
    total_xp_earned := 100
    transactions_today_count := 0
    last_transaction_date := none }

def gapState : ExpState := { profile := gapProfile, events := [] }

/-- A user in `Asia/Tokyo` (UTC+9) around UTC midnight: at the modelled
instant the server (UTC) date is epoch day 0 while the user-local Tokyo
date is already epoch day 1. -/
def tokyoProfile : Profile :=
  { timezone := "Asia/Tokyo"
    current_level := 1
    current_xp := 0
    current_streak := 1
    longest_streak := 1
    last_login_date := some 0
    total_xp_earned := 0
    transactions_today_count := 0
    last_transaction_date := none }

def tokyoState : ExpState := { profile := tokyoProfile, events := [] }

def tokyoAwardProfile : Profile :=
  { tokyoProfile with transactions_today_count := 5, last_transaction_date := some 0 }

def tokyoAwardState : ExpState := { profile := tokyoAwardProfile, events := [] }

/-- A state already at the daily cap on server day 3. -/
def capState : ExpState :=
  { profile := { sampleProfile with
      transactions_today_count := 7, last_transaction_date := some 3 }
    events := [] }

/-- A state mid-way through the daily cap on server day 3. -/
def midState : ExpState :=
  { profile := { sampleProfile with
      transactions_today_count := 2, last_transaction_date := some 3 }
    events := [] }

def tokyoClock : Clock :=
  { serverToday := 0
    localToday := fun z => if z = "Asia/Tokyo" then 1 else 0
    knownZone := fun z => z == "Asia/Tokyo" || z == "UTC" }

/-- A clock with the same server date as `tokyoClock` but a different
local-date table. -/
def altClock : Clock :=
  { serverToday := 0, localToday := fun _ => 42, knownZone := fun _ => true }

end Experience

namespace Insights

/-- `_calculate_month_over_month_delta` from `insights_service.py`:
`(current - previous) / previous`, with `1.0` when `previous == 0 < current`
and `0.0` when both are `0`. -/
def calculate_month_over_month_delta (current previous : ℚ) : ℚ :=
  if previous = 0 then (if current > 0 then 1 else 0)
  else (current - previous) / previous

/-- The `SavingsBreakdown` record built by `_build_savings_breakdown`. -/
structure SavingsBreakdown where
  saved : ℚ
  invested : ℚ
  savedDelta : Option ℚ
  investedDelta : Option ℚ
deriving Repr, DecidableEq

/--
`_build_savings_breakdown` from `insights_service.py`, with the four
repository aggregates (current and previous month totals of the
`savings` and `investments` categories) passed as arguments:

```python
saved_delta = self._calculate_month_over_month_delta(saved, prev_saved) if prev_saved else None
invested_delta = self._calculate_month_over_month_delta(invested, prev_invested) if prev_invested else None
```

Python's truthiness test `if prev_saved` on a `Decimal` is `prev_saved ≠ 0`.
-/
def build_savings_breakdown (saved invested prev_saved prev_invested : ℚ) :
    SavingsBreakdown :=
  { saved := saved
    invested := invested
    savedDelta :=
      if prev_saved ≠ 0 then some (calculate_month_over_month_delta saved prev_saved)
      else none
    investedDelta :=
      if prev_invested ≠ 0 then some (calculate_month_over_month_delta invested prev_invested)
      else none }

/-- `_calculate_percent` from `insights_service.py`:
`0.0` when the total is `0`, else `part / total * 100`. -/
def calculate_percent (part total : ℚ) : ℚ :=
  if total = 0 then 0 else part / total * 100

/-- In-place `rounded[i] += 1` of `_round_percentages`, as a pure list
update (out-of-range indices leave the list unchanged). -/
def incrAt : List ℤ → ℕ → List ℤ
  | [], _ => []
  | x :: xs, 0 => (x + 1) :: xs
  | x :: xs, n + 1 => x :: incrAt xs n

/-- In-place `if rounded[i] > 0: rounded[i] -= 1` of `_round_percentages`. -/
def decrAtPos : List ℤ → ℕ → List ℤ
  | [], _ => []
  | x :: xs, 0 => (if x > 0 then x - 1 else x) :: xs
  | x :: xs, n + 1 => x :: decrAtPos xs n

/--
`_round_percentages` from `insights_service.py`:

```python
if not percents: return []
total = sum(percents)
if total == 0: return [0 for _ in percents]
scale = 100.0 / total
scaled = [p * scale for p in percents]
rounded = [int(floor(p)) for p in scaled]
remainder = 100 - sum(rounded)
if remainder > 0:
    remainders = sorted([(idx, scaled[idx] - rounded[idx]) for idx in range(len(scaled))],
                        key=lambda item: item[1], reverse=True)
    for idx in range(remainder):
        rounded[remainders[idx][0]] += 1
elif remainder < 0:
    remainders = sorted(..., key=lambda item: item[1])
    for idx in range(-remainder):
        target_idx = remainders[idx][0]
        if rounded[target_idx] > 0:
            rounded[target_idx] -= 1
return rounded
```

Python floats are modelled by exact rationals.  Python's `sorted` is a
stable sort; it is modelled by `List.insertionSort` (stable, and, unlike
core's `mergeSort`, structurally recursive so concrete inputs evaluate).
`reverse=True` on key `item[1]` is the relation `b.2 ≤ a.2`.  The
increment loop over `range(remainder)` is the fold of `incrAt` over the
first `remainder` sorted indices; this agrees with Python whenever
`remainder ≤ len(scaled)`, which holds for every input reachable from
`_build_category_breakdown` (proved below as part of C2).
-/
def round_percentages (percents : List ℚ) : List ℤ :=
  if percents = [] then []
  else
    let total := percents.sum
    if total = 0 then percents.map (fun _ => 0)
    else
      let scale := 100 / total
      let scaled := percents.map (fun p => p * scale)
      let rounded := scaled.map (fun p => ⌊p⌋)
      let remainder : ℤ := 100 - rounded.sum
      if 0 < remainder then
        let remainders := ((List.range scaled.length).map
            (fun idx => (idx, scaled.getD idx 0 - ((rounded.getD idx 0 : ℤ) : ℚ)))).insertionSort
            (fun a b => b.2 ≤ a.2)
        ((remainders.take remainder.toNat).map Prod.fst).foldl incrAt rounded
      else if remainder < 0 then
        let remainders := ((List.range scaled.length).map
            (fun idx => (idx, scaled.getD idx 0 - ((rounded.getD idx 0 : ℤ) : ℚ)))).insertionSort
            (fun a b => a.2 ≤ b.2)
        ((remainders.take (-remainder).toNat).map Prod.fst).foldl decrAtPos rounded
      else rounded

/-- The category-percent pipeline of `_build_category_breakdown`: raw
percentages `_calculate_percent(cat_total, total_spent)` for each
category (where `total_spent` is the sum of all expense amounts, i.e. the
sum of the per-category totals), then `_round_percentages`. -/
def build_category_percents (totals : List ℚ) : List ℤ :=
  round_percentages (totals.map (fun t => calculate_percent t totals.sum))

/-- The subcategory-percent pipeline of `_build_category_breakdown`: raw
percentages `_calculate_percent(sub_total, cat_total)` for the
subcategory rows of one parent category, then `_round_percentages`. -/
def build_subcategory_percents (subTotals : List ℚ) (catTotal : ℚ) : List ℤ :=
  round_percentages (subTotals.map (fun t => calculate_percent t catTotal))

end Insights

namespace Recurrence

/-- A Python `datetime` (year, month, day, hour — minutes and below are
always zero in this service), compared lexicographically; the zone is
always UTC. -/
structure PyDateTime where
  year : ℕ
  month : ℕ
  day : ℕ
  hour : ℕ
deriving Repr, DecidableEq

/-- Gregorian leap year, as `calendar.isleap`. -/
def isLeapYear (y : ℕ) : Bool :=
  (y % 4 == 0 && y % 100 != 0) || y % 400 == 0

/-- `calendar.monthrange(y, m)[1]`. -/
def daysInMonth (y m : ℕ) : ℕ :=
  if m = 2 then (if isLeapYear y then 29 else 28)
  else if m = 4 ∨ m = 6 ∨ m = 9 ∨ m = 11 then 30
  else 31

def pyLT (a b : PyDateTime) : Bool :=
  a.year < b.year ||
    (a.year == b.year &&
      (a.month < b.month ||
        (a.month == b.month &&
          (a.day < b.day || (a.day == b.day && a.hour < b.hour)))))

def pyLE (a b : PyDateTime) : Bool := pyLT a b || a == b

/--
`current.replace(year=..., month=...)` as used to advance the month
cursor in `_calculate_monthly_occurrences`:

```python
if current.month == 12:
    current = current.replace(year=current.year + 1, month=1)
else:
    current = current.replace(month=current.month + 1)
```

Python's `datetime.replace` raises `ValueError` when the unchanged `day`
is out of range for the new month — the cursor keeps the start date's
day-of-month, so this step *raises* for day ≥ 29 cursors entering a
shorter month.
-/
def advance_month (dt : PyDateTime) : Except String PyDateTime :=
  if dt.month = 12 then
    if dt.day ≤ daysInMonth (dt.year + 1) 1 then
      .ok { dt with year := dt.year + 1, month := 1 }
    else .error "ValueError: day is out of range for month"
  else
    if dt.day ≤ daysInMonth dt.year (dt.month + 1) then
      .ok { dt with month := dt.month + 1 }
    else .error "ValueError: day is out of range for month"

/-- The recurrence fields of a monthly `RecurringTemplate` (the template's
`start_date` is modelled at midnight, matching the charitable
datetime reading of the `Date` column; see C1's discussion). -/
structure RecurringTemplate where
  day_of_month : ℕ
  start_date : PyDateTime
  end_date : Option PyDateTime
  total_occurrences : Option ℕ
deriving Repr, DecidableEq

/--
The `while current <= end_date` loop of `_calculate_monthly_occurrences`,
in the `Except` monad (Python's uncaught `ValueError` from
`advance_month`).  `fuel` only bounds the recursion: the month index
grows by one each iteration and the guard bounds it by `end_date`'s
month index, so with the fuel passed by `calculate_monthly_occurrences`
the `"loop fuel exhausted"` branch is unreachable.  The Python truthiness
test `if template.total_occurrences and count >= ...` is false when
`total_occurrences` is 0 or `None`.
-/
def monthly_loop (tmpl : RecurringTemplate) (start_date end_date : PyDateTime) :
    ℕ → PyDateTime → ℕ → List PyDateTime → Except String (List PyDateTime)
  | 0, _, _, _ => .error "loop fuel exhausted"
  | fuel + 1, current, occurrence_count, occurrences =>
    if pyLE current end_date then
      if pyLE start_date current then
        if (match tmpl.end_date with
            | some e => pyLT e current
            | none => false) then
          .ok occurrences
        else if (match tmpl.total_occurrences with
            | some c => c ≠ 0 && occurrence_count ≥ c
            | none => false) then
          .ok occurrences
        else
          let days := daysInMonth current.year current.month
          let actual_day := min tmpl.day_of_month days
          let occurrence : PyDateTime :=
            { year := current.year, month := current.month, day := actual_day, hour := 9 }
          let next :=
            if pyLE tmpl.start_date occurrence && pyLE start_date occurrence then
              (occurrence_count + 1, occurrences ++ [occurrence])
            else (occurrence_count, occurrences)
          match advance_month current with
          | .error e => .error e
          | .ok c2 => monthly_loop tmpl start_date end_date fuel c2 next.1 next.2
      else
        match advance_month current with
        | .error e => .error e
        | .ok c2 => monthly_loop tmpl start_date end_date fuel c2 occurrence_count occurrences
    else .ok occurrences

/-- `_calculate_monthly_occurrences(template, start_date, end_date)`. -/
def calculate_monthly_occurrences (tmpl : RecurringTemplate)
    (start_date end_date : PyDateTime) : Except String (List PyDateTime) :=
  monthly_loop tmpl start_date end_date ((end_date.year + 2) * 12) tmpl.start_date 0 []

/-- `clamp_day(y, m, day) = min(day, days_in_month)` (spec §4.1). -/
def clamp_day (y m day : ℕ) : ℕ := min day (daysInMonth y m)

/-- Lexicographic order on calendar dates `(y, m, d)`. -/
def dateLE (a b : ℕ × ℕ × ℕ) : Bool :=
  a.1 < b.1 ||
    (a.1 == b.1 && (a.2.1 < b.2.1 || (a.2.1 == b.2.1 && a.2.2 ≤ b.2.2)))

/-- The `k`-th month after `(y, m)`. -/
def month_add (y m k : ℕ) : ℕ × ℕ :=
  let idx := y * 12 + (m - 1) + k
  (idx / 12, idx % 12 + 1)

/--
Modelled from the spec (§4.4, Monthly case — the clamping behaviour the
repository's own tests `test_monthly_on_day_31_*` also assert): walk
months starting from the template's start month; for each month the
occurrence date is `clamp_day(y, m, day_of_month)`; include it iff it is
`≥ template.start_date`, `≥ R_start` and `≤ R_end`; stop past `R_end`.
(`end_date` and `total_occurrences` are omitted: the claim's template
has neither.)
-/
def spec_monthly_occurrence_dates (dayOfMonth : ℕ)
    (startDate rStart rEnd : ℕ × ℕ × ℕ) : List (ℕ × ℕ × ℕ) :=
  let sy := startDate.1
  let sm := startDate.2.1
  let window := (rEnd.1 * 12 + rEnd.2.1 + 2) - (sy * 12 + sm)
  (((List.range window).map (fun k => month_add sy sm k)).map
      (fun ym => (ym.1, ym.2, clamp_day ym.1 ym.2 dayOfMonth))).filter
    (fun d => dateLE startDate d && dateLE rStart d && dateLE d rEnd)

/-- The template of the claimed boundary scenario: monthly on day 31,
starting 2024-01-31, no end, no occurrence cap. -/
def c1_template : RecurringTemplate :=
  { day_of_month := 31
    start_date := { year := 2024, month := 1, day := 31, hour := 0 }
    end_date := none
    total_occurrences := none }

end Recurrence

namespace Routes

/--
The try/except structure of `create_expense_transaction` in
`transaction_routes.py` around the XP award:

```python
transaction = await transaction_service.create_expense_transaction(...)
try:
    await experience_service.award_transaction_xp(current_user_id, session)
except Exception as xp_error:
    logger.error(f"Failed to award transaction XP: ...")
return transaction
```

`σ` is the session state, `create` the service create (which commits the
transaction write) and `award` the XP award; both are parameters because
the claim is about the route's control flow.  On an XP error the award's
effects are discarded and the already-committed create state is kept.
-/
def create_expense_transaction {σ ε ε2 τ : Type}
    (create : σ → Except ε (σ × τ)) (award : σ → Except ε2 σ) (s : σ) :
    σ × Except ε τ :=
  match create s with
  | .error e => (s, .error e)
  | .ok (s1, txn) =>
    match award s1 with
    | .ok s2 => (s2, .ok txn)
    | .error _ => (s1, .ok txn)

/-- `create_income_transaction` has the identical try/except structure. -/
def create_income_transaction {σ ε ε2 τ : Type}
    (create : σ → Except ε (σ × τ)) (award : σ → Except ε2 σ) (s : σ) :
    σ × Except ε τ :=
  match create s with
  | .error e => (s, .error e)
  | .ok (s1, txn) =>
    match award s1 with
    | .ok s2 => (s2, .ok txn)
    | .error _ => (s1, .ok txn)

/-- A concrete create: appends a row and returns it. -/
def sampleCreate : ℕ → Except String (ℕ × ℕ) := fun n => .ok (n + 1, 42)

/-- A concrete always-failing XP award. -/
def sampleAwardFail : ℕ → Except String ℕ := fun _ => .error "xp failure"

end Routes

namespace TransactionRepo

/-- A `transactions` row (the columns the date-range query touches);
`occurred_at` and `created_at` are epoch-based integers. -/
structure Transaction where
  id : ℕ
  user_id : ℕ
  occurred_at : ℤ
  created_at : ℤ
deriving Repr, DecidableEq

/--
`get_transactions_by_date_range` from `transaction_repository.py`:

```python
stmt = (select(Transaction)
        .where(and_(Transaction.user_id == user_id,
                    Transaction.occurred_at >= start_date,
                    Transaction.occurred_at <= end_date))
        .order_by(Transaction.occurred_at.desc()))
```

The table is modelled as the list of rows in insertion order; the single
`ORDER BY occurred_at DESC` is modelled as a stable descending sort on
that one key (the SQL standard leaves the relative order of ties
unspecified; any refinement of the query may return ties in either
order — the stable model suffices to exhibit one legal output).  Note
the query has **no** `created_at` tie-break key.
-/
def get_transactions_by_date_range (table : List Transaction) (user_id : ℕ)
    (start_date end_date : ℤ) : List Transaction :=
  (table.filter (fun t =>
      t.user_id == user_id && decide (start_date ≤ t.occurred_at)
        && decide (t.occurred_at ≤ end_date))).insertionSort
    (fun a b => b.occurred_at ≤ a.occurred_at)

end TransactionRepo

section Theorems

namespace Experience

/-- `5*k*(k+1) ≤ x` iff `k` is at most the value computed by the level
formula (minus one); the core arithmetic fact behind
`calculate_level_from_xp`. -/
lemma levelNat_iff (x k : ℕ) :
    5 * k * (k + 1) ≤ x ↔ k ≤ (Nat.sqrt (25 + 20 * x) - 5) / 10 := by
  have hs5 : 5 ≤ Nat.sqrt (25 + 20 * x) := Nat.le_sqrt.mpr (by omega)
  constructor
  · intro h
    have h2 : (10 * k + 5) * (10 * k + 5) ≤ 25 + 20 * x := by nlinarith
    have h3 : 10 * k + 5 ≤ Nat.sqrt (25 + 20 * x) := Nat.le_sqrt.mpr h2
    have h4 : k * 10 ≤ Nat.sqrt (25 + 20 * x) - 5 := by omega
    exact (Nat.le_div_iff_mul_le (by norm_num)).mpr h4
  · intro h
    have h4 : k * 10 ≤ Nat.sqrt (25 + 20 * x) - 5 :=
      (Nat.le_div_iff_mul_le (by norm_num)).mp h
    have h3 : 10 * k + 5 ≤ Nat.sqrt (25 + 20 * x) := by omega
    have h2 : (10 * k + 5) * (10 * k + 5) ≤ 25 + 20 * x := Nat.le_sqrt.mp h3
    nlinarith

/-- `calculate_level_from_xp X` is the greatest `L ≥ 1` with
`5·(L-1)·L ≤ X`, for `X ≥ 0`. -/
lemma level_is_greatest (X : ℤ) (hX : 0 ≤ X) :
    1 ≤ calculate_level_from_xp X ∧
    5 * (calculate_level_from_xp X - 1) * calculate_level_from_xp X ≤ X ∧
    ∀ M : ℤ, 1 ≤ M → 5 * (M - 1) * M ≤ X → M ≤ calculate_level_from_xp X := by
  by_cases hx0 : X ≤ 0
  · have hX0 : X = 0 := le_antisymm hx0 hX
    subst hX0
    have hlevel : calculate_level_from_xp 0 = 1 := by
      unfold calculate_level_from_xp
      norm_num
    rw [hlevel]
    refine ⟨le_refl 1, by norm_num, ?_⟩
    intro M hM hMX
    nlinarith
  · push_neg at hx0
    have hx1 : (1 : ℤ) ≤ X := hx0
    set s := Nat.sqrt (25 + 20 * X.toNat) with hs
    set k : ℕ := (s - 5) / 10 with hk
    have hlevel : calculate_level_from_xp X = (k : ℤ) + 1 := by
      unfold calculate_level_from_xp
      rw [if_neg (by omega)]
      rw [max_eq_right (by omega)]
    rw [hlevel]
    have hXt : (X.toNat : ℤ) = X := Int.toNat_of_nonneg hX
    refine ⟨by omega, ?_, ?_⟩
    · have h1 : 5 * k * (k + 1) ≤ X.toNat := (levelNat_iff X.toNat k).mpr (le_refl k)
      have h2 : ((5 * k * (k + 1) : ℕ) : ℤ) ≤ X := by
        rw [← hXt]
        exact_mod_cast h1
      push_cast at h2
      linarith [h2]
    · intro M hM hMX
      set m : ℕ := (M - 1).toNat with hm
      have hMm : (m : ℤ) = M - 1 := Int.toNat_of_nonneg (by omega)
      have hprod : ((5 * m * (m + 1) : ℕ) : ℤ) ≤ X := by
        push_cast
        rw [hMm]
        have : (m : ℤ) + 1 = M := by omega
        rw [hMm] at this
        calc 5 * (M - 1) * (M - 1 + 1) = 5 * (M - 1) * M := by ring
        _ ≤ X := hMX
      have hprodN : 5 * m * (m + 1) ≤ X.toNat := by
        have := hprod
        rw [← hXt] at this
        exact_mod_cast this
      have hmk : m ≤ k := (levelNat_iff X.toNat m).mp hprodN
      omega

/-- Bridge between the executable embedding of `calculate_level_from_xp`
and the real-valued formula written in the source,
`max(1, floor((-1 + sqrt(1 + 0.8 * xp)) / 2) + 1)`: for `xp ≥ 1` the two
agree, so the `Nat.sqrt`-based definition is a faithful (exact-arithmetic)
model of the Python code. -/
lemma level_matches_real_formula (xp : ℤ) (hxp : 1 ≤ xp) :
    calculate_level_from_xp xp =
      max 1 (⌊(-1 + Real.sqrt (1 + (8 / 10 : ℝ) * (xp : ℝ))) / 2⌋ + 1) := by
  set m : ℕ := 25 + 20 * xp.toNat with hm
  set s : ℕ := Nat.sqrt m with hs
  have htn : ((xp.toNat : ℕ) : ℤ) = xp := Int.toNat_of_nonneg (by omega)
  have htnR : ((xp.toNat : ℕ) : ℝ) = (xp : ℝ) := by exact_mod_cast htn
  have harg : (1 + (8 / 10 : ℝ) * (xp : ℝ)) = (m : ℝ) / 25 := by
    rw [hm]
    push_cast
    rw [htnR]
    ring
  have hsqrt5 : Real.sqrt 25 = 5 := by
    rw [show (25 : ℝ) = 5 ^ 2 by norm_num, Real.sqrt_sq (by norm_num)]
  have hsqrt : Real.sqrt (1 + (8 / 10 : ℝ) * (xp : ℝ)) = Real.sqrt (m : ℝ) / 5 := by
    rw [harg, Real.sqrt_div' (m : ℝ) (by norm_num), hsqrt5]
  have hsl : (s : ℝ) ≤ Real.sqrt (m : ℝ) := Real.nat_sqrt_le_real_sqrt
  have hsu : Real.sqrt (m : ℝ) < (s : ℝ) + 1 := by
    have := Real.real_sqrt_lt_nat_sqrt_succ (a := m)
    push_cast at this
    exact this
  have hs5 : 5 ≤ s := Nat.le_sqrt.mpr (by omega)
  set q : ℕ := (s - 5) / 10 with hq
  have hsq : 10 * q + 5 ≤ s ∧ s < 10 * q + 15 := by
    constructor <;> omega
  have hfloor : ⌊(-1 + Real.sqrt (1 + (8 / 10 : ℝ) * (xp : ℝ))) / 2⌋ = (q : ℤ) := by
    rw [Int.floor_eq_iff, hsqrt]
    have h1 : ((10 * q + 5 : ℕ) : ℝ) ≤ Real.sqrt (m : ℝ) := le_trans (by exact_mod_cast Nat.cast_le.mpr hsq.1) hsl
    have h2 : Real.sqrt (m : ℝ) < ((10 * q + 15 : ℕ) : ℝ) := by
      refine lt_of_lt_of_le hsu ?_
      have : s + 1 ≤ 10 * q + 15 := by omega
      exact_mod_cast Nat.cast_le.mpr this
    push_cast at h1 h2 ⊢
    refine ⟨by linarith, by linarith⟩
  have hlevel : calculate_level_from_xp xp = (q : ℤ) + 1 := by
    unfold calculate_level_from_xp
    rw [if_neg (by omega)]
    rw [max_eq_right (by omega)]
  rw [hlevel, hfloor]
  rw [max_eq_right (by omega)]

/-- **C3.** For every integer `X ≥ 0`, `calculate_level_from_xp X` is the
largest `L ≥ 1` with `5·(L−1)·L ≤ X`; in particular, for every `L ≥ 2`,
`calculate_level_from_xp (5·(L−1)·L) = L` and
`calculate_level_from_xp (5·(L−1)·L − 1) = L − 1`. -/
theorem C3_level_from_xp_greatest (X : ℤ) (hX : 0 ≤ X) (L : ℤ) (hL : 2 ≤ L) :
    (1 ≤ calculate_level_from_xp X ∧
     5 * (calculate_level_from_xp X - 1) * calculate_level_from_xp X ≤ X ∧
     ∀ M : ℤ, 1 ≤ M → 5 * (M - 1) * M ≤ X → M ≤ calculate_level_from_xp X) ∧
    calculate_level_from_xp (5 * (L - 1) * L) = L ∧
    calculate_level_from_xp (5 * (L - 1) * L - 1) = L - 1 := by
  refine ⟨level_is_greatest X hX, ?_, ?_⟩
  · obtain ⟨h1, h2, h3⟩ := level_is_greatest (5 * (L - 1) * L) (by nlinarith)
    have hle : L ≤ calculate_level_from_xp (5 * (L - 1) * L) := h3 L (by omega) (le_refl _)
    have hge : calculate_level_from_xp (5 * (L - 1) * L) ≤ L := by
      by_contra hcon
      push_neg at hcon
      nlinarith
    omega
  · obtain ⟨h1, h2, h3⟩ := level_is_greatest (5 * (L - 1) * L - 1) (by nlinarith)
    have hle : L - 1 ≤ calculate_level_from_xp (5 * (L - 1) * L - 1) :=
      h3 (L - 1) (by omega) (by nlinarith)
    have hge : calculate_level_from_xp (5 * (L - 1) * L - 1) ≤ L - 1 := by
      by_contra hcon
      push_neg at hcon
      nlinarith
    omega

/-- Witness for C3 at `X = 95`, `L = 4`. -/
theorem C3_level_from_xp_greatest_witness :
    (0 : ℤ) ≤ (95 : ℤ) ∧ (2 : ℤ) ≤ (4 : ℤ) ∧
    ((1 ≤ calculate_level_from_xp 95 ∧
      5 * (calculate_level_from_xp 95 - 1) * calculate_level_from_xp 95 ≤ 95 ∧
      ∀ M : ℤ, 1 ≤ M → 5 * (M - 1) * M ≤ 95 → M ≤ calculate_level_from_xp 95) ∧
     calculate_level_from_xp (5 * (4 - 1) * 4) = 4 ∧
     calculate_level_from_xp (5 * (4 - 1) * 4 - 1) = 4 - 1) :=
  ⟨by norm_num, by norm_num, C3_level_from_xp_greatest 95 (by norm_num) 4 (by norm_num)⟩

end Experience

namespace Insights

lemma incrAt_length (l : List ℤ) (i : ℕ) : (incrAt l i).length = l.length := by
  induction l generalizing i with
  | nil => rfl
  | cons x xs ih =>
    cases i with
    | zero => rfl
    | succ n => simp [incrAt, ih]

lemma incrAt_sum (l : List ℤ) (i : ℕ) (h : i < l.length) :
    (incrAt l i).sum = l.sum + 1 := by
  induction l generalizing i with
  | nil => exact absurd h (by simp)
  | cons x xs ih =>
    cases i with
    | zero => simp [incrAt]; ring
    | succ n =>
      simp only [incrAt, List.sum_cons]
      rw [ih n (by simpa using h)]
      ring

lemma foldl_incrAt_sum (idxs : List ℕ) (l : List ℤ)
    (h : ∀ i ∈ idxs, i < l.length) :
    (idxs.foldl incrAt l).sum = l.sum + idxs.length := by
  induction idxs generalizing l with
  | nil => simp
  | cons i is ih =>
    simp only [List.foldl_cons, List.length_cons]
    rw [ih (incrAt l i) (fun j hj => by rw [incrAt_length]; exact h j (by simp [hj]))]
    rw [incrAt_sum l i (h i (by simp))]
    push_cast
    ring

lemma map_floor_sum_le (l : List ℚ) :
    (((l.map (fun p => ⌊p⌋)).sum : ℤ) : ℚ) ≤ l.sum := by
  induction l with
  | nil => simp
  | cons a tl ih =>
    simp only [List.map_cons, List.sum_cons]
    push_cast
    push_cast at ih
    linarith [Int.floor_le a]

lemma sum_le_map_floor_sum_add_length (l : List ℚ) :
    l.sum ≤ (((l.map (fun p => ⌊p⌋)).sum : ℤ) : ℚ) + l.length := by
  induction l with
  | nil => simp
  | cons a tl ih =>
    simp only [List.map_cons, List.sum_cons, List.length_cons]
    push_cast
    push_cast at ih
    linarith [Int.lt_floor_add_one a]

lemma sum_lt_map_floor_sum_add_length (l : List ℚ) (hne : l ≠ []) :
    l.sum < (((l.map (fun p => ⌊p⌋)).sum : ℤ) : ℚ) + l.length := by
  cases l with
  | nil => exact absurd rfl hne
  | cons a tl =>
    have ih := sum_le_map_floor_sum_add_length tl
    simp only [List.map_cons, List.sum_cons, List.length_cons]
    push_cast
    push_cast at ih
    linarith [Int.lt_floor_add_one a]

lemma sum_map_mul_right_q (l : List ℚ) (c : ℚ) :
    (l.map (fun p => p * c)).sum = l.sum * c := by
  induction l with
  | nil => simp
  | cons a tl ih =>
    simp only [List.map_cons, List.sum_cons, ih]
    ring

/-- The central invariant of `_round_percentages`: whenever the input
list has a nonzero sum, the returned integer percentages sum to exactly
100. -/
lemma round_percentages_sum (percents : List ℚ) (h : percents.sum ≠ 0) :
    (round_percentages percents).sum = 100 := by
  have hne : percents ≠ [] := by rintro rfl; simp at h
  simp only [round_percentages, if_neg hne, if_neg h]
  set scaled := percents.map (fun p => p * (100 / percents.sum)) with hscaled
  set rounded := scaled.map (fun p => ⌊p⌋) with hrounded
  set remainder : ℤ := 100 - rounded.sum with hrem
  have hssum : scaled.sum = 100 := by
    rw [hscaled, sum_map_mul_right_q]
    field_simp
  have hlen : scaled.length = percents.length := by simp [hscaled]
  have hlenr : rounded.length = scaled.length := by simp [hrounded]
  have hlow : ((rounded.sum : ℤ) : ℚ) ≤ 100 := by
    rw [hrounded]
    calc (((scaled.map (fun p => ⌊p⌋)).sum : ℤ) : ℚ) ≤ scaled.sum := map_floor_sum_le scaled
    _ = 100 := hssum
  have hsne : scaled ≠ [] := by
    rw [hscaled]
    simpa using hne
  have hup : (100 : ℚ) < ((rounded.sum : ℤ) : ℚ) + scaled.length := by
    have h1 := sum_lt_map_floor_sum_add_length scaled hsne
    rw [hssum] at h1
    exact h1
  have hlennn : percents.length ≠ 0 := fun hc => hne (List.length_eq_zero.mp hc)
  have hremnn : 0 ≤ remainder := by
    have : rounded.sum ≤ 100 := by exact_mod_cast hlow
    omega
  have hremlt : remainder < percents.length := by
    have : (100 : ℚ) < ((rounded.sum : ℤ) : ℚ) + percents.length := by
      rw [← hlen]; exact hup
    have h2 : (100 : ℤ) < rounded.sum + percents.length := by exact_mod_cast this
    omega
  by_cases h0 : 0 < remainder
  · rw [if_pos h0]
    have hidx : ∀ i ∈ (((((List.range scaled.length).map
        (fun idx => (idx, scaled.getD idx 0 - ((rounded.getD idx 0 : ℤ) : ℚ)))).insertionSort
        (fun a b => b.2 ≤ a.2)).take remainder.toNat).map Prod.fst), i < rounded.length := by
      intro i hi
      obtain ⟨p, hp, hpe⟩ := List.mem_map.mp hi
      have hpmem := List.mem_of_mem_take hp
      have hbase := (List.mem_insertionSort _).mp hpmem
      obtain ⟨idx, hidx2, hide⟩ := List.mem_map.mp hbase
      have : idx < scaled.length := List.mem_range.mp hidx2
      rw [hlenr]
      rw [← hpe, ← hide]
      exact this
    rw [foldl_incrAt_sum _ _ hidx]
    have htake : ((((((List.range scaled.length).map
        (fun idx => (idx, scaled.getD idx 0 - ((rounded.getD idx 0 : ℤ) : ℚ)))).insertionSort
        (fun a b => b.2 ≤ a.2)).take remainder.toNat).map Prod.fst)).length = remainder.toNat := by
      rw [List.length_map, List.length_take, List.length_insertionSort,
        List.length_map, List.length_range]
      rw [hlen]
      omega
    rw [htake]
    omega
  · rw [if_neg h0]
    rw [if_neg (by omega : ¬ remainder < 0)]
    omega

/-- When the month total is `0`, every raw percent is `0.0` and
`_round_percentages` returns all zeros. -/
lemma build_category_percents_zero (totals : List ℚ) (h : totals.sum = 0) :
    ∀ p ∈ build_category_percents totals, p = 0 := by
  intro p hp
  unfold build_category_percents at hp
  rw [h] at hp
  have hz : totals.map (fun t => calculate_percent t 0) = totals.map (fun _ => (0 : ℚ)) := by
    simp [calculate_percent]
  rw [hz] at hp
  unfold round_percentages at hp
  by_cases hne : totals.map (fun _ => (0 : ℚ)) = []
  · rw [if_pos hne] at hp
    simp at hp
  · rw [if_neg hne] at hp
    rw [if_pos (List.sum_eq_zero (by simp))] at hp
    simp at hp
    obtain ⟨q, hq, hqe⟩ := hp
    omega

lemma sum_map_calculate_percent (l : List ℚ) (S : ℚ) (hS : S ≠ 0) :
    (l.map (fun t => calculate_percent t S)).sum = l.sum / S * 100 := by
  have hmap : l.map (fun t => calculate_percent t S) = l.map (fun t => t * (100 / S)) := by
    apply List.map_congr_left
    intro a _
    unfold calculate_percent
    rw [if_neg hS]
    ring
  rw [hmap, sum_map_mul_right_q]
  ring

/-- **C2.** For every `MonthSnapshot` with at least one expense (so the
per-category totals sum to a nonzero month total), the integer category
percentages produced by `_build_category_breakdown` via
`_round_percentages` sum to exactly 100; when the month total is 0 they
are all 0; the same holds for the subcategory percentages within a
parent category (whose subcategory rows have nonzero raw percentages);
and totals `{1, 1, 1}` yield percents `{34, 33, 33}` (floors plus
largest-remainder, ties to the lower index). -/
theorem C2_category_percentages (catTotals subTotals : List ℚ) (catTotal : ℚ)
    (hcat : catTotals.sum ≠ 0) (hct : catTotal ≠ 0) (hsub : subTotals.sum ≠ 0) :
    (build_category_percents catTotals).sum = 100 ∧
    (∀ totals : List ℚ, totals.sum = 0 → ∀ p ∈ build_category_percents totals, p = 0) ∧
    (build_subcategory_percents subTotals catTotal).sum = 100 ∧
    build_category_percents [1, 1, 1] = [34, 33, 33] := by
  refine ⟨?_, fun totals h => build_category_percents_zero totals h, ?_, ?_⟩
  · unfold build_category_percents
    apply round_percentages_sum
    rw [sum_map_calculate_percent _ _ hcat]
    field_simp
  · unfold build_subcategory_percents
    apply round_percentages_sum
    rw [sum_map_calculate_percent _ _ hct]
    exact mul_ne_zero (div_ne_zero hsub hct) (by norm_num)
  · norm_num [build_category_percents, round_percentages, calculate_percent,
      incrAt, List.insertionSort, List.orderedInsert]
    exact fun h => absurd h (by simp)

/-- Witness for C2 at category totals `[2]`, subcategory totals `[3]`
within a parent total `5`. -/
theorem C2_category_percentages_witness :
    (build_category_percents [2]).sum = 100 ∧
    (∀ totals : List ℚ, totals.sum = 0 → ∀ p ∈ build_category_percents totals, p = 0) ∧
    (build_subcategory_percents [3] 5).sum = 100 ∧
    build_category_percents [1, 1, 1] = [34, 33, 33] :=
  C2_category_percentages [2] [3] 5 (by norm_num) (by norm_num) (by norm_num)

/-- **C6** counterexample: in the savings breakdown the guard
`if prev_saved else None` makes the delta `None` whenever the previous
month's total is 0 — including when the current total is positive (the
claim says `1.0`) and when both are 0 (the claim says `0.0`). -/
theorem C6_savings_delta_counterexample :
    (build_savings_breakdown 100 100 0 0).savedDelta = none ∧
    (build_savings_breakdown 100 100 0 0).savedDelta ≠ some 1 ∧
    (build_savings_breakdown 0 0 0 0).savedDelta = none ∧
    (build_savings_breakdown 0 0 0 0).savedDelta ≠ some 0 := by
  refine ⟨?_, ?_, ?_, ?_⟩ <;> simp [build_savings_breakdown]

/-- **C6 amended.** In the `MonthSnapshot` savings breakdown, for each of
the savings and investments categories, the reported delta is `None`
whenever the previous month's total is 0 (regardless of the current
total), and equals `(current − previous) / previous` when the previous
total is nonzero. -/
theorem C6_savings_delta_amended (saved invested prevS prevI : ℚ) :
    (prevS = 0 → (build_savings_breakdown saved invested prevS prevI).savedDelta = none) ∧
    (prevS ≠ 0 → (build_savings_breakdown saved invested prevS prevI).savedDelta =
      some ((saved - prevS) / prevS)) ∧
    (prevI = 0 → (build_savings_breakdown saved invested prevS prevI).investedDelta = none) ∧
    (prevI ≠ 0 → (build_savings_breakdown saved invested prevS prevI).investedDelta =
      some ((invested - prevI) / prevI)) := by
  refine ⟨fun h => ?_, fun h => ?_, fun h => ?_, fun h => ?_⟩ <;>
    simp [build_savings_breakdown, calculate_month_over_month_delta, h]

/-- Witness for the amended C6 at `saved = 5, invested = 7,
prev_saved = 0, prev_invested = 2`. -/
theorem C6_savings_delta_amended_witness :
    (build_savings_breakdown 5 7 0 2).savedDelta = none ∧
    (build_savings_breakdown 5 7 0 2).investedDelta = some ((7 - 2) / 2) :=
  ⟨(C6_savings_delta_amended 5 7 0 2).1 rfl,
   (C6_savings_delta_amended 5 7 0 2).2.2.2 (by norm_num)⟩

end Insights

namespace Experience

/-- **C10.** The experience status read is not read-only: whenever the
stored `last_transaction_date` differs from the current server date,
`get_status` zeroes `transactions_today_count`, stamps
`last_transaction_date = today` and commits exactly that change — every
other profile field is untouched and no XP event is created (the event
log is returned unchanged). -/
theorem C10_get_status_resets_daily_counter (s : ExpState) (today : ℤ)
    (h : s.profile.last_transaction_date ≠ some today) :
    (get_status today s).1 =
      { s with profile := { s.profile with
          transactions_today_count := 0
          last_transaction_date := some today } } ∧
    (get_status today s).1.events = s.events := by
  unfold get_status
  simp [h]

/-- Witness for C10 on a fresh profile at `today = 5`. -/
theorem C10_get_status_resets_daily_counter_witness :
    sampleState.profile.last_transaction_date ≠ some 5 ∧
    ((get_status 5 sampleState).1 =
      { sampleState with profile := { sampleState.profile with
          transactions_today_count := 0
          last_transaction_date := some (5 : ℤ) } } ∧
     (get_status 5 sampleState).1.events = sampleState.events) :=
  ⟨by decide, C10_get_status_resets_daily_counter sampleState 5 (by decide)⟩

lemma apply_inactivity_penalties_two (p : Profile) :
    apply_inactivity_penalties p 2 =
      ({ p with
          current_xp := max 0 (max 0 (p.current_xp - 15) - 30)
          current_level := calculate_level_from_xp (max 0 (max 0 (p.current_xp - 15) - 30)) },
       [{ xp_amount := -15, event_type := "inactivity_penalty",
          description := "Missed day 1 of inactivity" },
        { xp_amount := -30, event_type := "inactivity_penalty",
          description := "Missed day 2 of inactivity" }]) := by
  obtain ⟨tz, cl, cx, cs, ls, ld, te, tc, lt⟩ := p
  unfold apply_inactivity_penalties
  rw [show (List.range (2 : ℤ).toNat).map (fun i => (i : ℤ) + 1) = ([1, 2] : List ℤ) from by decide]
  simp only [List.foldl_cons, List.foldl_nil, inactivity_penalty_step,
    Prod.mk.injEq, Profile.mk.injEq, XPEvent.mk.injEq]
  norm_num
  exact ⟨⟨congrArg calculate_level_from_xp (by omega), by omega⟩, by decide, by decide⟩

/-- **C4 counterexample.** The claim says that after a check-in with
`last_login_date = today − 3` the streak ends up at 1; on the code the
post-gap check-in does not increment the streak (the increment is guarded
by `not streak_broken`), so it ends at 0. -/
theorem C4_check_in_after_gap_counterexample :
    (check_in 10
      { profile :=
          { timezone := "UTC", current_level := 5, current_xp := 100, current_streak := 5,
            longest_streak := 5, last_login_date := some 7, total_xp_earned := 100,
            transactions_today_count := 0, last_transaction_date := none },
        events := [] }).1.profile.current_streak = 0 ∧
    ¬ (check_in 10
      { profile :=
          { timezone := "UTC", current_level := 5, current_xp := 100, current_streak := 5,
            longest_streak := 5, last_login_date := some 7, total_xp_earned := 100,
            transactions_today_count := 0, last_transaction_date := none },
        events := [] }).1.profile.current_streak = 1 := by
  constructor <;> decide

/-- **C4 amended.** For a check-in where `last_login_date = today − 3`:
exactly two `inactivity_penalty` events of −15 and −30 are appended
(XP floored at ≥ 0 after each, `total_xp_earned` untouched by the
penalties), the streak is reset and stays at 0 (the claim said 1: the
`+1` increment only runs when the streak was not broken), then the +15
`daily_login` event is awarded, no milestone event is appended, and
`last_login_date` is set to `today`. -/
theorem C4_check_in_after_gap_amended (s : ExpState) (today : ℤ)
    (h : s.profile.last_login_date = some (today - 3)) :
    (check_in today s).2.xp_awarded = 15 ∧
    (check_in today s).2.streak_broken = true ∧
    (check_in today s).2.streak_incremented = false ∧
    (check_in today s).2.new_streak = 0 ∧
    (check_in today s).1.profile.current_streak = 0 ∧
    (check_in today s).2.milestone_reached = none ∧
    (check_in today s).1.profile.last_login_date = some today ∧
    (check_in today s).1.profile.total_xp_earned = s.profile.total_xp_earned + 15 ∧
    (check_in today s).1.profile.current_xp =
      max 0 (max 0 (s.profile.current_xp - 15) - 30) + 15 ∧
    (check_in today s).2.inactivity_penalties =
      [{ xp_amount := -15, event_type := "inactivity_penalty",
         description := "Missed day 1 of inactivity" },
       { xp_amount := -30, event_type := "inactivity_penalty",
         description := "Missed day 2 of inactivity" }] ∧
    (check_in today s).1.events = s.events ++
      [{ xp_amount := -15, event_type := "inactivity_penalty",
         description := "Missed day 1 of inactivity" },
       { xp_amount := -30, event_type := "inactivity_penalty",
         description := "Missed day 2 of inactivity" },
       { xp_amount := 15, event_type := "daily_login", description := "Daily check-in" }] := by
  have hne : s.profile.last_login_date ≠ some today := by
    rw [h]
    intro hc
    have := Option.some.inj hc
    omega
  have hdm : today - (today - 3) - 1 = 2 := by ring
  unfold check_in
  rw [if_neg hne, h]
  simp only [hdm]
  norm_num [apply_inactivity_penalties_two, check_and_award_streak_milestone,
    STREAK_MILESTONES]

/-- Witness for the amended C4 on `gapState` at server date 10. -/
theorem C4_check_in_after_gap_amended_witness :
    gapState.profile.last_login_date = some ((10 : ℤ) - 3) ∧
    ((check_in 10 gapState).2.xp_awarded = 15 ∧
     (check_in 10 gapState).2.streak_broken = true ∧
     (check_in 10 gapState).2.streak_incremented = false ∧
     (check_in 10 gapState).2.new_streak = 0 ∧
     (check_in 10 gapState).1.profile.current_streak = 0 ∧
     (check_in 10 gapState).2.milestone_reached = none ∧
     (check_in 10 gapState).1.profile.last_login_date = some 10 ∧
     (check_in 10 gapState).1.profile.total_xp_earned = gapState.profile.total_xp_earned + 15 ∧
     (check_in 10 gapState).1.profile.current_xp =
       max 0 (max 0 (gapState.profile.current_xp - 15) - 30) + 15 ∧
     (check_in 10 gapState).2.inactivity_penalties =
       [{ xp_amount := -15, event_type := "inactivity_penalty",
          description := "Missed day 1 of inactivity" },
        { xp_amount := -30, event_type := "inactivity_penalty",
          description := "Missed day 2 of inactivity" }] ∧
     (check_in 10 gapState).1.events = gapState.events ++
       [{ xp_amount := -15, event_type := "inactivity_penalty",
          description := "Missed day 1 of inactivity" },
        { xp_amount := -30, event_type := "inactivity_penalty",
          description := "Missed day 2 of inactivity" },
        { xp_amount := 15, event_type := "daily_login", description := "Daily check-in" }]) :=
  ⟨by decide, C4_check_in_after_gap_amended gapState 10 (by decide)⟩

lemma foldl_penalty_step_tz (days : List ℤ) (p : Profile) (evs : List XPEvent) (tz : String) :
    days.foldl inactivity_penalty_step ({ p with timezone := tz }, evs) =
      ({ (days.foldl inactivity_penalty_step (p, evs)).1 with timezone := tz },
       (days.foldl inactivity_penalty_step (p, evs)).2) := by
  induction days generalizing p evs with
  | nil => rfl
  | cons d ds ih =>
    simp only [List.foldl_cons]
    have h1 : inactivity_penalty_step ({ p with timezone := tz }, evs) d =
        ({ (inactivity_penalty_step (p, evs) d).1 with timezone := tz },
         (inactivity_penalty_step (p, evs) d).2) := rfl
    rw [h1]
    exact ih _ _

/-- `_apply_inactivity_penalties` never reads or writes the profile's
timezone: changing the timezone commutes with it. -/
lemma apply_inactivity_penalties_tz (p : Profile) (tz : String) (d : ℤ) :
    apply_inactivity_penalties { p with timezone := tz } d =
      ({ (apply_inactivity_penalties p d).1 with timezone := tz },
       (apply_inactivity_penalties p d).2) := by
  unfold apply_inactivity_penalties
  dsimp only
  rw [foldl_penalty_step_tz]

lemma apply_inactivity_penalties_normalize (tz : String) {cl cx cs ls : ℤ}
    {ld : Option ℤ} {te tc : ℤ} {lt : Option ℤ} (d : ℤ) :
    apply_inactivity_penalties (Profile.mk tz cl cx cs ls ld te tc lt) d =
      ({ (apply_inactivity_penalties (Profile.mk "" cl cx cs ls ld te tc lt) d).1 with
          timezone := tz },
       (apply_inactivity_penalties (Profile.mk "" cl cx cs ls ld te tc lt) d).2) :=
  apply_inactivity_penalties_tz (Profile.mk "" cl cx cs ls ld te tc lt) tz d

/-- `_check_and_award_streak_milestone` never reads or writes the
profile's timezone. -/
lemma check_and_award_streak_milestone_tz (p : Profile) (tz : String)
    (events : List XPEvent) :
    check_and_award_streak_milestone { p with timezone := tz } events =
      ({ (check_and_award_streak_milestone p events).1 with timezone := tz },
       (check_and_award_streak_milestone p events).2.1,
       (check_and_award_streak_milestone p events).2.2) := by
  unfold check_and_award_streak_milestone
  dsimp only
  cases hf : STREAK_MILESTONES.find? (fun m => m.1 == p.current_streak) with
  | none => rfl
  | some m =>
    cases hg : get_milestone_event events p.current_streak with
    | some e => rfl
    | none => rfl

lemma check_and_award_streak_milestone_normalize (tz : String) {cl cx cs ls : ℤ}
    {ld : Option ℤ} {te tc : ℤ} {lt : Option ℤ} (events : List XPEvent) :
    check_and_award_streak_milestone (Profile.mk tz cl cx cs ls ld te tc lt) events =
      ({ (check_and_award_streak_milestone (Profile.mk "" cl cx cs ls ld te tc lt) events).1 with
          timezone := tz },
       (check_and_award_streak_milestone (Profile.mk "" cl cx cs ls ld te tc lt) events).2.1,
       (check_and_award_streak_milestone (Profile.mk "" cl cx cs ls ld te tc lt) events).2.2) :=
  check_and_award_streak_milestone_tz (Profile.mk "" cl cx cs ls ld te tc lt) tz events

/-- `check_in` never reads the profile's timezone; it only carries it
through. -/
lemma check_in_tz (today : ℤ) (s : ExpState) (tz : String) :
    check_in today { s with profile := { s.profile with timezone := tz } } =
      ({ (check_in today s).1 with profile :=
          { (check_in today s).1.profile with timezone := tz } },
       (check_in today s).2) := by
  obtain ⟨⟨tz0, cl, cx, cs, ls, ld, te, tc, lt⟩, evs⟩ := s
  unfold check_in
  dsimp only
  cases ld with
  | none =>
    have hne : (none : Option ℤ) ≠ some today := by simp
    simp only [if_neg hne, Bool.false_eq_true, if_false]
    rw [check_and_award_streak_milestone_normalize tz,
      check_and_award_streak_milestone_normalize tz0]
  | some last =>
    by_cases h1 : (some last : Option ℤ) = some today
    · simp only [if_pos h1]
    · simp only [if_neg h1]
      by_cases h2 : (0 : ℤ) < today - last - 1
      · simp only [if_pos h2, if_true]
        rw [apply_inactivity_penalties_normalize tz, apply_inactivity_penalties_normalize tz0]
        dsimp only
        rw [check_and_award_streak_milestone_normalize tz,
          check_and_award_streak_milestone_normalize tz0]
      · simp only [if_neg h2, Bool.false_eq_true, if_false]
        rw [check_and_award_streak_milestone_normalize tz,
          check_and_award_streak_milestone_normalize tz0]

/-- `award_transaction_xp` never reads the profile's timezone. -/
lemma award_transaction_xp_tz (today : ℤ) (s : ExpState) (tz : String) :
    award_transaction_xp today { s with profile := { s.profile with timezone := tz } } =
      ({ (award_transaction_xp today s).1 with profile :=
          { (award_transaction_xp today s).1.profile with timezone := tz } },
       (award_transaction_xp today s).2) := by
  obtain ⟨⟨tz0, cl, cx, cs, ls, ld, te, tc, lt⟩, evs⟩ := s
  unfold award_transaction_xp
  dsimp only
  by_cases h1 : lt = some today
  · have h1n : ¬ (lt ≠ some today) := by simp [h1]
    simp only [if_neg h1n]
    by_cases h2 : tc ≥ TRANSACTION_DAILY_LIMIT
    · simp only [if_pos h2]
    · simp only [if_neg h2]
  · have h1p : lt ≠ some today := h1
    simp only [if_pos h1p]
    have h2 : ¬ ((0 : ℤ) ≥ TRANSACTION_DAILY_LIMIT) := by norm_num [TRANSACTION_DAILY_LIMIT]
    simp only [if_neg h2]

/-- **C5 counterexample.** A user whose profile timezone is
`Asia/Tokyo`, at an instant where the server's (UTC) calendar date is
day 0 but the Tokyo calendar date is already day 1: `check_in` compares
`last_login_date` against the server date (so a user who checked in on
server-day 0 is told "already checked in" even though their local day is
new), and `award_transaction_xp` neither resets the daily counter nor
awards XP — while the timezone-resolved versions built on the source's
own `get_user_today` helper (which the experience service never calls)
check in and award.  The last two conjuncts pin the helper itself down:
it returns the Tokyo date for the profile's zone (≠ the server date the
code uses) and falls back to UTC on an unknown zone.  This refutes the
claim that both functions compute 'today' in the profile's IANA
timezone. -/
theorem C5_timezone_counterexample :
    (check_in_route tokyoClock tokyoState).2.xp_awarded = 0 ∧
    (check_in_route tokyoClock tokyoState).2.message = "Already checked in today" ∧
    (check_in_spec_tz tokyoClock tokyoState).2.xp_awarded = 15 ∧
    (award_transaction_xp_route tokyoClock tokyoAwardState).2 = none ∧
    (award_transaction_xp_spec_tz tokyoClock tokyoAwardState).2 ≠ none ∧
    get_user_today tokyoClock tokyoState.profile.timezone ≠ tokyoClock.serverToday ∧
    get_user_today tokyoClock "Not/AZone" = tokyoClock.localToday "UTC" := by
  refine ⟨?_, ?_, ?_, ?_, ?_, ?_, ?_⟩ <;> decide

/-- **C5 amended.** Both `check_in` and `award_transaction_xp` compute
'today' with `date.today()` — the server's current calendar date — and
ignore the profile's IANA timezone entirely: the results depend on the
clock only through `serverToday`, and replacing the profile's timezone
by any other string changes nothing except the stored timezone itself.
All same-day comparisons use the server date. -/
theorem C5_server_date_amended (c c2 : Clock) (s : ExpState) (tz : String)
    (hc : c2.serverToday = c.serverToday) :
    check_in_route c2 s = check_in_route c s ∧
    award_transaction_xp_route c2 s = award_transaction_xp_route c s ∧
    (check_in_route c { s with profile := { s.profile with timezone := tz } }).2 =
      (check_in_route c s).2 ∧
    (check_in_route c { s with profile := { s.profile with timezone := tz } }).1 =
      { (check_in_route c s).1 with profile :=
          { (check_in_route c s).1.profile with timezone := tz } } ∧
    (award_transaction_xp_route c { s with profile := { s.profile with timezone := tz } }).2 =
      (award_transaction_xp_route c s).2 ∧
    (award_transaction_xp_route c { s with profile := { s.profile with timezone := tz } }).1 =
      { (award_transaction_xp_route c s).1 with profile :=
          { (award_transaction_xp_route c s).1.profile with timezone := tz } } := by
  refine ⟨?_, ?_, ?_, ?_, ?_, ?_⟩
  · unfold check_in_route
    rw [hc]
  · unfold award_transaction_xp_route
    rw [hc]
  · unfold check_in_route
    rw [check_in_tz c.serverToday s tz]
  · unfold check_in_route
    rw [check_in_tz c.serverToday s tz]
  · unfold award_transaction_xp_route
    rw [award_transaction_xp_tz c.serverToday s tz]
  · unfold award_transaction_xp_route
    rw [award_transaction_xp_tz c.serverToday s tz]

/-- Witness for the amended C5: `altClock` shares `tokyoClock`'s server
date but has a completely different local-date table, and the timezone
is rewritten to `Europe/Paris`. -/
theorem C5_server_date_amended_witness :
    altClock.serverToday = tokyoClock.serverToday ∧
    (check_in_route altClock tokyoState = check_in_route tokyoClock tokyoState ∧
     award_transaction_xp_route altClock tokyoState =
       award_transaction_xp_route tokyoClock tokyoState ∧
     (check_in_route tokyoClock { tokyoState with profile :=
         { tokyoState.profile with timezone := "Europe/Paris" } }).2 =
       (check_in_route tokyoClock tokyoState).2 ∧
     (check_in_route tokyoClock { tokyoState with profile :=
         { tokyoState.profile with timezone := "Europe/Paris" } }).1 =
       { (check_in_route tokyoClock tokyoState).1 with profile :=
           { (check_in_route tokyoClock tokyoState).1.profile with
              timezone := "Europe/Paris" } } ∧
     (award_transaction_xp_route tokyoClock { tokyoState with profile :=
         { tokyoState.profile with timezone := "Europe/Paris" } }).2 =
       (award_transaction_xp_route tokyoClock tokyoState).2 ∧
     (award_transaction_xp_route tokyoClock { tokyoState with profile :=
         { tokyoState.profile with timezone := "Europe/Paris" } }).1 =
       { (award_transaction_xp_route tokyoClock tokyoState).1 with profile :=
           { (award_transaction_xp_route tokyoClock tokyoState).1.profile with
              timezone := "Europe/Paris" } }) :=
  ⟨rfl, C5_server_date_amended tokyoClock altClock tokyoState "Europe/Paris" rfl⟩

/-- With the counter already at the cap on the same day, the call is a
complete no-op: same state, no event, `None` returned. -/
lemma award_noop (today : ℤ) (s : ExpState)
    (h1 : s.profile.last_transaction_date = some today)
    (h2 : TRANSACTION_DAILY_LIMIT ≤ s.profile.transactions_today_count) :
    award_transaction_xp today s = (s, none) := by
  unfold award_transaction_xp
  have hn : ¬ (s.profile.last_transaction_date ≠ some today) := by simp [h1]
  simp only [if_neg hn, if_pos h2]

/-- An awarding call on the same day below the cap: `+3` XP, counter
incremented, one `transaction` event appended. -/
lemma award_step (today : ℤ) (s : ExpState)
    (h1 : s.profile.last_transaction_date = some today)
    (h2 : s.profile.transactions_today_count < TRANSACTION_DAILY_LIMIT) :
    award_transaction_xp today s =
      ({ profile := { s.profile with
            current_level := calculate_level_from_xp (s.profile.current_xp + 3)
            current_xp := s.profile.current_xp + 3
            total_xp_earned := s.profile.total_xp_earned + 3
            transactions_today_count := s.profile.transactions_today_count + 1 },
         events := s.events ++
           [{ xp_amount := 3, event_type := "transaction", description := "Logged transaction" }] },
       some
         { xp_awarded := 3
           new_total_xp := s.profile.current_xp + 3
           transactions_today_count := s.profile.transactions_today_count + 1 }) := by
  unfold award_transaction_xp
  have hn : ¬ (s.profile.last_transaction_date ≠ some today) := by simp [h1]
  have hc : ¬ (s.profile.transactions_today_count ≥ TRANSACTION_DAILY_LIMIT) := not_le.mpr h2
  simp only [if_neg hn, if_neg hc]

/-- The first awarding call of a new server day: counter reset to 0 then
incremented to 1, `last_transaction_date` stamped with today. -/
lemma award_step_reset (today : ℤ) (s : ExpState)
    (h : s.profile.last_transaction_date ≠ some today) :
    award_transaction_xp today s =
      ({ profile := { s.profile with
            current_level := calculate_level_from_xp (s.profile.current_xp + 3)
            current_xp := s.profile.current_xp + 3
            total_xp_earned := s.profile.total_xp_earned + 3
            transactions_today_count := 1
            last_transaction_date := some today },
         events := s.events ++
           [{ xp_amount := 3, event_type := "transaction", description := "Logged transaction" }] },
       some
         { xp_awarded := 3
           new_total_xp := s.profile.current_xp + 3
           transactions_today_count := 1 }) := by
  unfold award_transaction_xp
  simp only [if_pos h]
  have hc : ¬ ((0 : ℤ) ≥ TRANSACTION_DAILY_LIMIT) := by norm_num [TRANSACTION_DAILY_LIMIT]
  simp only [if_neg hc]
  norm_num

lemma count_tx_append_one (evs : List XPEvent) :
    count_transaction_events (evs ++
      [{ xp_amount := 3, event_type := "transaction", description := "Logged transaction" }]) =
      count_transaction_events evs + 1 := by
  simp [count_transaction_events]

/-- Cap invariant for calls on a day that has already started: the number
of `transaction` events created by any further calls is bounded by the
headroom left in the daily counter. -/
lemma award_calls_le_of_eq (today : ℤ) (n : ℕ) :
    ∀ s : ExpState, s.profile.last_transaction_date = some today →
      count_transaction_events (award_calls today n s).events ≤
        count_transaction_events s.events +
          (TRANSACTION_DAILY_LIMIT - s.profile.transactions_today_count).toNat := by
  induction n with
  | zero =>
    intro s _
    simp [award_calls]
  | succ n ih =>
    intro s h
    rw [show award_calls today (n + 1) s =
      award_calls today n (award_transaction_xp today s).1 from rfl]
    by_cases hcap : TRANSACTION_DAILY_LIMIT ≤ s.profile.transactions_today_count
    · rw [show (award_transaction_xp today s).1 = s from by rw [award_noop today s h hcap]]
      exact ih s h
    · push_neg at hcap
      have hstep := award_step today s h hcap
      have h1 : (award_transaction_xp today s).1.profile.last_transaction_date = some today := by
        rw [hstep]
        exact h
      have h2 : (award_transaction_xp today s).1.profile.transactions_today_count =
          s.profile.transactions_today_count + 1 := by
        rw [hstep]
      have h3 : count_transaction_events (award_transaction_xp today s).1.events =
          count_transaction_events s.events + 1 := by
        rw [hstep]
        exact count_tx_append_one s.events
      have hbig := ih (award_transaction_xp today s).1 h1
      rw [h2, h3] at hbig
      have hlim : TRANSACTION_DAILY_LIMIT = 5 := rfl
      rw [hlim] at hbig hcap ⊢
      omega

/-- **C7 counterexample.** Ten `award_transaction_xp` calls, all during
the same *user-local* day (epoch day 1 in the user's zone): the first
five run late on server day 0, the next five after server midnight on
server day 1 (for a Tokyo user both instants fall on Tokyo day 1).  The
date change resets the server-day counter, so all ten calls award and
ten `transaction` XP events are created within one user-local day —
refuting the ≤ 5 bound as stated over user-local days. -/
theorem C7_user_day_cap_counterexample :
    award_trace_user_day_count 1
      [(0, 1), (0, 1), (0, 1), (0, 1), (0, 1), (1, 1), (1, 1), (1, 1), (1, 1), (1, 1)]
      sampleState = 10 ∧
    ¬ award_trace_user_day_count 1
      [(0, 1), (0, 1), (0, 1), (0, 1), (0, 1), (1, 1), (1, 1), (1, 1), (1, 1), (1, 1)]
      sampleState ≤ 5 := by
  constructor <;> decide

/-- **C7 amended.** The daily cap is per *server*-local day (the day
used by `date.today()` in the code), not per user-local day: starting
from any state whose stored `last_transaction_date` is not the current
server date, any number of `award_transaction_xp` calls on that server
day create at most 5 `transaction` XP events; each awarding call adds
+3 XP, increments `transactions_today_count` and appends exactly one
`transaction` event; and once the counter is at the cap (same-day), the
call is a no-op returning `None` that changes nothing. -/
theorem C7_transaction_daily_cap (s : ExpState) (today : ℤ) (n : ℕ)
    (h : s.profile.last_transaction_date ≠ some today) :
    count_transaction_events (award_calls today n s).events ≤
      count_transaction_events s.events + 5 ∧
    (∀ s2 : ExpState, s2.profile.last_transaction_date = some today →
      TRANSACTION_DAILY_LIMIT ≤ s2.profile.transactions_today_count →
      award_transaction_xp today s2 = (s2, none)) ∧
    (∀ s3 : ExpState, s3.profile.last_transaction_date = some today →
      s3.profile.transactions_today_count < TRANSACTION_DAILY_LIMIT →
      (award_transaction_xp today s3).1.profile.current_xp = s3.profile.current_xp + 3 ∧
      (award_transaction_xp today s3).1.profile.transactions_today_count =
        s3.profile.transactions_today_count + 1 ∧
      (award_transaction_xp today s3).1.events = s3.events ++
        [{ xp_amount := 3, event_type := "transaction", description := "Logged transaction" }]) := by
  refine ⟨?_, fun s2 h1 h2 => award_noop today s2 h1 h2, fun s3 h1 h2 => ?_⟩
  · cases n with
    | zero => simp [award_calls]
    | succ n =>
      rw [show award_calls today (n + 1) s =
        award_calls today n (award_transaction_xp today s).1 from rfl]
      have hstep := award_step_reset today s h
      have h1 : (award_transaction_xp today s).1.profile.last_transaction_date = some today := by
        rw [hstep]
      have h2 : (award_transaction_xp today s).1.profile.transactions_today_count = 1 := by
        rw [hstep]
      have h3 : count_transaction_events (award_transaction_xp today s).1.events =
          count_transaction_events s.events + 1 := by
        rw [hstep]
        exact count_tx_append_one s.events
      have hbig := award_calls_le_of_eq today n (award_transaction_xp today s).1 h1
      rw [h2, h3] at hbig
      have hlim : TRANSACTION_DAILY_LIMIT = 5 := rfl
      rw [hlim] at hbig
      omega
  · rw [award_step today s3 h1 h2]
    exact ⟨rfl, rfl, rfl⟩

/-- Witness for the amended C7 on a fresh profile, 7 calls at server
day 3. -/
theorem C7_transaction_daily_cap_witness :
    sampleState.profile.last_transaction_date ≠ some 3 ∧
    count_transaction_events (award_calls 3 7 sampleState).events ≤
      count_transaction_events sampleState.events + 5 ∧
    award_transaction_xp 3 capState = (capState, none) ∧
    (award_transaction_xp 3 midState).1.profile.current_xp =
      midState.profile.current_xp + 3 :=
  ⟨by decide,
   (C7_transaction_daily_cap sampleState 3 7 (by decide)).1,
   (C7_transaction_daily_cap sampleState 3 7 (by decide)).2.1 capState (by decide) (by decide),
   ((C7_transaction_daily_cap sampleState 3 7 (by decide)).2.2 midState
     (by decide) (by decide)).1⟩

end Experience

namespace Recurrence

/-- **C1.** The claimed (and spec/test-asserted) behaviour: materializing
the day-31 monthly template over 2024-01-01..2024-04-30 yields the four
clamped dates.  On the code this is a bug: `_calculate_monthly_occurrences`
advances its month cursor with `current.replace(month=current.month + 1)`
while the cursor keeps day 31, so entering February raises
`ValueError: day is out of range for month` — the embedded function
returns that error instead of the dates.  The spec-modelled clamping walk
(which the repository's own test
`test_monthly_on_day_31_february_clamps_to_29` also asserts) yields
exactly {2024-01-31, 2024-02-29, 2024-03-31, 2024-04-30}. -/
theorem C1_monthly_day31_cursor_bug :
    calculate_monthly_occurrences c1_template
        { year := 2024, month := 1, day := 1, hour := 0 }
        { year := 2024, month := 4, day := 30, hour := 0 } =
      Except.error "ValueError: day is out of range for month" ∧
    spec_monthly_occurrence_dates 31 (2024, 1, 31) (2024, 1, 1) (2024, 4, 30) =
      [(2024, 1, 31), (2024, 2, 29), (2024, 3, 31), (2024, 4, 30)] := by
  exact ⟨rfl, by decide⟩

end Recurrence

namespace Routes

/-- **C8.** If the transaction create succeeds and `award_transaction_xp`
then raises any exception, both create routes still return the created
transaction: the XP error is caught and logged, never surfaces to the
caller, and the committed create state is kept (no rollback of the
transaction write). -/
theorem C8_xp_error_never_fails_create {σ ε ε2 τ : Type}
    (create : σ → Except ε (σ × τ)) (award : σ → Except ε2 σ)
    (s s1 : σ) (txn : τ) (e : ε2)
    (hcreate : create s = .ok (s1, txn)) (haward : award s1 = .error e) :
    create_expense_transaction create award s = (s1, .ok txn) ∧
    create_income_transaction create award s = (s1, .ok txn) := by
  unfold create_expense_transaction create_income_transaction
  simp only [hcreate, haward]
  exact ⟨trivial, trivial⟩

/-- Witness for C8 with a concrete create and an always-failing award. -/
theorem C8_xp_error_never_fails_create_witness :
    sampleCreate 0 = Except.ok (1, 42) ∧
    sampleAwardFail 1 = Except.error "xp failure" ∧
    (create_expense_transaction sampleCreate sampleAwardFail 0 = (1, Except.ok 42) ∧
     create_income_transaction sampleCreate sampleAwardFail 0 = (1, Except.ok 42)) :=
  ⟨rfl, rfl,
   C8_xp_error_never_fails_create sampleCreate sampleAwardFail 0 1 42 "xp failure" rfl rfl⟩

end Routes

namespace TransactionRepo

/-- **C9 counterexample.** The query orders by `occurred_at` only; with
two rows sharing `occurred_at` but with ascending `created_at`, the
returned order keeps the earlier-created row first, violating the claimed
`created_at` descending tie-break. -/
theorem C9_no_created_at_tiebreak_counterexample :
    get_transactions_by_date_range
        [{ id := 1, user_id := 1, occurred_at := 0, created_at := 0 },
         { id := 2, user_id := 1, occurred_at := 0, created_at := 1 }] 1 (-5) 5 =
      [{ id := 1, user_id := 1, occurred_at := 0, created_at := 0 },
       { id := 2, user_id := 1, occurred_at := 0, created_at := 1 }] ∧
    ¬ List.Pairwise
        (fun a b : Transaction => a.occurred_at = b.occurred_at → b.created_at ≤ a.created_at)
        (get_transactions_by_date_range
          [{ id := 1, user_id := 1, occurred_at := 0, created_at := 0 },
           { id := 2, user_id := 1, occurred_at := 0, created_at := 1 }] 1 (-5) 5) := by
  constructor <;> decide

/-- **C9 amended.** `list_by_date_range` returns exactly the user's
transactions in the range, sorted by `occurred_at` descending — with no
guaranteed order among rows sharing the same `occurred_at` (the query
has no `created_at` tie-break key). -/
theorem C9_order_amended (table : List Transaction) (uid : ℕ) (sd ed : ℤ) :
    List.Pairwise (fun a b : Transaction => b.occurred_at ≤ a.occurred_at)
      (get_transactions_by_date_range table uid sd ed) ∧
    List.Perm (get_transactions_by_date_range table uid sd ed)
      (table.filter (fun t =>
        t.user_id == uid && decide (sd ≤ t.occurred_at) && decide (t.occurred_at ≤ ed))) := by
  constructor
  · letI : IsTotal Transaction (fun a b => b.occurred_at ≤ a.occurred_at) :=
      ⟨fun a b => le_total b.occurred_at a.occurred_at⟩
    letI : IsTrans Transaction (fun a b => b.occurred_at ≤ a.occurred_at) :=
      ⟨fun _ _ _ hab hbc => le_trans hbc hab⟩
    exact List.sorted_insertionSort _ _
  · exact List.perm_insertionSort _ _

end TransactionRepo

end Theorems
